import Mathlib

/-!
# Game-controller firmware: input pipeline and wire format

A shallow embedding of `src/main/main.c`: the interrupt callback that resolves a
pin to a raw button ID, the debouncer loop of `game_btn_task`, the three analog
samplers, the two joystick filters and the 4-byte frame writer.

Conventions of the embedding.

* A C `int` is a Lean `Int`; a `uint32_t`/`uint` is a `Nat`, and the one place
  where unsigned wrap-around matters (`has_debounced`) reduces modulo `2 ^ 32`
  explicitly.
* The serial channel is the list of bytes handed to `uart_putc_raw`, oldest
  first; a queue send is the list of items handed to `xQueueSend`.
* One iteration of a task loop that received an item is a `_step` function from
  the task's local variables and the received item to the new local variables
  and what the iteration output.
-/

namespace Controller

/-! ## Constants -/

abbrev DEBOUNCE_TIME : Nat := 200

abbrev GAME_BTN_B_PIN : Nat := 10
abbrev GAME_BTN_Y_PIN : Nat := 11
abbrev GAME_BTN_X_PIN : Nat := 12
abbrev GAME_BTN_A_PIN : Nat := 13
abbrev R_TRIGGER_PIN : Nat := 14
abbrev L_TRIGGER_PIN : Nat := 15
abbrev R_JOYSTICK_SW_PIN : Nat := 21
abbrev L_JOYSTICK_SW_PIN : Nat := 20

/-- The SDK's event masks: `0x4` is a falling edge (the literal the callback
tests), `0x8` a rising edge. -/
abbrev GPIO_IRQ_EDGE_FALL : Nat := 0x4
abbrev GPIO_IRQ_EDGE_RISE : Nat := 0x8

/-! ## Data structures -/

/-- The record `adc_t`: both fields are C `int`. -/
structure adc_t where
  axis : Int
  val : Int
  deriving DecidableEq

/-- The record `joystick_state_t`: the last value sent for each axis. -/
structure joystick_state_t where
  last_val_x : Int
  last_val_y : Int
  deriving DecidableEq

/-! ## Utilities -/

/-- The byte that `uart_putc_raw` puts on the wire for an `int` argument: the
argument converted to `char`, that is its low eight bits. -/
def uart_putc_raw (c : Int) : Nat := (c % 256).toNat

/-- The function `has_debounced`: an unsigned 32-bit subtraction compared with
`DEBOUNCE_TIME`. -/
def has_debounced (current_trigger last_trigger : Nat) : Bool :=
  decide ((((current_trigger : Int) - (last_trigger : Int)) % 4294967296) > (DEBOUNCE_TIME : Int))

/-- The function `write_package`: the four bytes written, in order. -/
def write_package (data : adc_t) : List Nat :=
  [uart_putc_raw data.axis,
   uart_putc_raw (Int.shiftRight data.val 8),
   uart_putc_raw (Int.land data.val 0xFF),
   uart_putc_raw (-1)]

/-- Receiver side of the wire format as the specification words it: two bytes
read as one 16-bit big-endian two's-complement number. -/
def spec_be16_signed (hi lo : Nat) : Int :=
  if hi * 256 + lo < 32768 then ((hi * 256 + lo : Nat) : Int)
  else ((hi * 256 + lo : Nat) : Int) - 65536

/-- Receiver side of the wire format as the specification words it: byte 1 is
the axis, bytes 2 and 3 the value, byte 4 the sentinel `0xFF`. -/
def spec_decode_frame : List Nat → Option adc_t
  | [a, hi, lo, 255] => some ⟨(a : Int), spec_be16_signed hi lo⟩
  | _ => none

/-! ## Callback -/

/-- The interrupt callback `game_btn_callback`: the list of values it hands to
`xQueueSendFromISR (xQueueGameButton, &pressed, 0)`. The send is the last
statement of the function, outside the test on `events`. -/
def game_btn_callback (gpio events : Nat) : List Nat :=
  let pressed : Nat :=
    if events = 0x4 then
      if gpio = GAME_BTN_B_PIN then 0
      else if gpio = GAME_BTN_Y_PIN then 1
      else if gpio = GAME_BTN_X_PIN then 2
      else if gpio = GAME_BTN_A_PIN then 3
      else if gpio = R_TRIGGER_PIN then 4
      else if gpio = L_TRIGGER_PIN then 5
      else if gpio = R_JOYSTICK_SW_PIN then 6
      else if gpio = L_JOYSTICK_SW_PIN then 7
      else 0
    else 0
  [pressed]

/-! ## The serial encoder task -/

/-- One iteration of `hc06_task` that received `data` from `xQueueBluetooth`:
the bytes it writes. -/
def hc06_step (data : adc_t) : List Nat := write_package data

/-! ## The debouncer task -/

/-- The eight timestamp variables local to `game_btn_task`. -/
structure game_btn_state where
  b_btn_last_trigger : Nat
  y_btn_last_trigger : Nat
  x_btn_last_trigger : Nat
  a_btn_last_trigger : Nat
  tr_btn_last_trigger : Nat
  tl_btn_last_trigger : Nat
  r_joysw_last_trigger : Nat
  l_joysw_last_trigger : Nat
  deriving DecidableEq

/-- The initial values of the eight timestamps. -/
def game_btn_init : game_btn_state := ⟨0, 0, 0, 0, 0, 0, 0, 0⟩

/-- What one iteration of a task puts out: the bytes written to the serial
channel and the items sent to the transmit queue `xQueueBluetooth`. -/
structure task_output where
  uart : List Nat
  bluetooth : List adc_t
  deriving DecidableEq

/-- One iteration of the loop of `game_btn_task` that received `pressed_button`
from `xQueueGameButton` and then read the clock as `trigger_time`. Each
accepting branch stores the time and calls `write_package` itself. -/
def game_btn_step (s : game_btn_state) (pressed_button trigger_time : Nat) :
    game_btn_state × task_output :=
  if pressed_button = 0 ∧ has_debounced trigger_time s.b_btn_last_trigger = true then
    ({ s with b_btn_last_trigger := trigger_time }, ⟨write_package ⟨0, 1⟩, []⟩)
  else if pressed_button = 1 ∧ has_debounced trigger_time s.y_btn_last_trigger = true then
    ({ s with y_btn_last_trigger := trigger_time }, ⟨write_package ⟨1, 1⟩, []⟩)
  else if pressed_button = 2 ∧ has_debounced trigger_time s.x_btn_last_trigger = true then
    ({ s with x_btn_last_trigger := trigger_time }, ⟨write_package ⟨2, 1⟩, []⟩)
  else if pressed_button = 3 ∧ has_debounced trigger_time s.a_btn_last_trigger = true then
    ({ s with a_btn_last_trigger := trigger_time }, ⟨write_package ⟨3, 1⟩, []⟩)
  else if pressed_button = 4 ∧ has_debounced trigger_time s.tr_btn_last_trigger = true then
    ({ s with tr_btn_last_trigger := trigger_time }, ⟨write_package ⟨4, 1⟩, []⟩)
  else if pressed_button = 5 ∧ has_debounced trigger_time s.tl_btn_last_trigger = true then
    ({ s with tl_btn_last_trigger := trigger_time }, ⟨write_package ⟨5, 1⟩, []⟩)
  else if pressed_button = 6 ∧ has_debounced trigger_time s.r_joysw_last_trigger = true then
    ({ s with r_joysw_last_trigger := trigger_time }, ⟨write_package ⟨10, 1⟩, []⟩)
  else if pressed_button = 7 ∧ has_debounced trigger_time s.l_joysw_last_trigger = true then
    ({ s with l_joysw_last_trigger := trigger_time }, ⟨write_package ⟨11, 1⟩, []⟩)
  else (s, ⟨[], []⟩)

/-- One line of the debouncer's trace: the raw button ID received, the time read
and what the iteration put out. -/
structure btn_record where
  pressed_button : Nat
  trigger_time : Nat
  out : task_output
  deriving DecidableEq

/-- The loop of `game_btn_task` run over a sequence of received
`(pressed_button, trigger_time)` pairs, one trace line per iteration. -/
def game_btn_trace : game_btn_state → List (Nat × Nat) → List btn_record
  | _, [] => []
  | s, (pressed_button, trigger_time) :: rest =>
    ⟨pressed_button, trigger_time, (game_btn_step s pressed_button trigger_time).2⟩ ::
      game_btn_trace (game_btn_step s pressed_button trigger_time).1 rest

/-- The timestamp variable that belongs to raw button ID `k` (the DebounceTable
entry of `k`); IDs above 7 have none. -/
def last_trigger (s : game_btn_state) : Nat → Nat
  | 0 => s.b_btn_last_trigger
  | 1 => s.y_btn_last_trigger
  | 2 => s.x_btn_last_trigger
  | 3 => s.a_btn_last_trigger
  | 4 => s.tr_btn_last_trigger
  | 5 => s.tl_btn_last_trigger
  | 6 => s.r_joysw_last_trigger
  | 7 => s.l_joysw_last_trigger
  | _ => 0

/-- The state with the timestamp variable of raw button ID `k` set to `t`. -/
def set_trigger (s : game_btn_state) (k t : Nat) : game_btn_state :=
  match k with
  | 0 => { s with b_btn_last_trigger := t }
  | 1 => { s with y_btn_last_trigger := t }
  | 2 => { s with x_btn_last_trigger := t }
  | 3 => { s with a_btn_last_trigger := t }
  | 4 => { s with tr_btn_last_trigger := t }
  | 5 => { s with tl_btn_last_trigger := t }
  | 6 => { s with r_joysw_last_trigger := t }
  | 7 => { s with l_joysw_last_trigger := t }
  | _ => s

/-- The `data.axis` that the accepting branch of raw button ID `k` assigns:
IDs 0 to 5 keep their number, the joystick switches 6 and 7 are sent as
10 and 11. -/
def btn_axis (k : Nat) : Int := if k ≤ 5 then (k : Int) else (k : Int) + 4

/-! ## The samplers -/

/-- One iteration of `x_task` whose `adc_read ()` returned `raw`: the item sent
to `xQueueJoyStick`. The C `/` on `int` truncates toward zero. -/
def x_task_step (raw : Int) : adc_t :=
  let data : adc_t := ⟨6, raw⟩
  let mapped_val : Int := Int.tdiv ((data.val - 2047) * 255) 2047
  ⟨data.axis, -mapped_val⟩

/-- One iteration of `y_task` whose `adc_read ()` returned `raw`: the item sent
to `xQueueJoyStick`. -/
def y_task_step (raw : Int) : adc_t :=
  let data : adc_t := ⟨7, raw⟩
  let mapped_val : Int := Int.tdiv ((data.val - 2047) * 255) 2047
  ⟨data.axis, -mapped_val⟩

/-- One iteration of `mux_task` with local `get_x`, whose `adc_read ()` returned
`raw`: the level put on `MUX_A_CONTROL_PIN`, the item sent to
`xQueueJoyStickLeft` and the new `get_x`. -/
def mux_task_step (get_x : Bool) (raw : Int) : Bool × adc_t × Bool :=
  let axis : Int := if get_x then 8 else 9
  let level : Bool := if get_x then false else true
  let data : adc_t := ⟨axis, raw⟩
  let mapped_val : Int := Int.tdiv ((data.val - 2047) * 255) 2047
  (level, ⟨data.axis, -mapped_val⟩, if get_x then false else true)

/-! ## The joystick filters -/

/-- Negation of a C `int` on the 32-bit target: the result wraps. -/
def int_neg (i : Int) : Int := (-i + 2147483648) % 4294967296 - 2147483648

/-- The library function `abs` on `int`, as `(i < 0) ? -i : i`; at `INT_MIN`,
where C leaves the result undefined, the negation wraps. -/
def int_abs (i : Int) : Int := if i < 0 then int_neg i else i

/-- What the pointer `last_value` of a filter task points to. -/
inductive slot where
  | last_val_x
  | last_val_y
  deriving DecidableEq

/-- Read through the pointer: `*last_value`. -/
def deref (s : joystick_state_t) : slot → Int
  | .last_val_x => s.last_val_x
  | .last_val_y => s.last_val_y

/-- Write through the pointer: `*last_value = v`. -/
def assign (s : joystick_state_t) : slot → Int → joystick_state_t
  | .last_val_x, v => ⟨v, s.last_val_y⟩
  | .last_val_y, v => ⟨s.last_val_x, v⟩

/-- The initial value `{0, 0}` of a filter's state. -/
def joystick_init : joystick_state_t := ⟨0, 0⟩

/-- One iteration of `joystick_task` that received `data` from
`xQueueJoyStick`: the new state and the items sent to `xQueueBluetooth`. -/
def joystick_task_step (right_joystick_state : joystick_state_t) (data : adc_t) :
    joystick_state_t × List adc_t :=
  let last_value : Option slot :=
    if data.axis = 6 then some .last_val_x
    else if data.axis = 7 then some .last_val_y
    else none
  match last_value with
  | none => (right_joystick_state, [])
  | some last_value =>
    if int_abs data.val > 30 then
      if data.val ≠ deref right_joystick_state last_value then
        (assign right_joystick_state last_value data.val, [data])
      else (right_joystick_state, [])
    else
      if deref right_joystick_state last_value ≠ 0 then
        (assign right_joystick_state last_value 0, [⟨data.axis, 0⟩])
      else (right_joystick_state, [])

/-- One iteration of `left_joystick_task` that received `data` from
`xQueueJoyStickLeft`: the new state and the items sent to `xQueueBluetooth`. -/
def left_joystick_task_step (left_joystick_state : joystick_state_t) (data : adc_t) :
    joystick_state_t × List adc_t :=
  let last_value : Option slot :=
    if data.axis = 8 then some .last_val_x
    else if data.axis = 9 then some .last_val_y
    else none
  match last_value with
  | none => (left_joystick_state, [])
  | some last_value =>
    if int_abs data.val > 42 then
      if data.val ≠ deref left_joystick_state last_value then
        (assign left_joystick_state last_value data.val, [data])
      else (left_joystick_state, [])
    else
      if deref left_joystick_state last_value ≠ 0 then
        (assign left_joystick_state last_value 0, [⟨data.axis, 0⟩])
      else (left_joystick_state, [])

/-- A filter loop run over a sequence of received samples: the final state and
everything sent to `xQueueBluetooth`, oldest first. -/
def filter_run (step : joystick_state_t → adc_t → joystick_state_t × List adc_t) :
    joystick_state_t → List adc_t → joystick_state_t × List adc_t
  | s, [] => (s, [])
  | s, data :: rest =>
    ((filter_run step (step s data).1 rest).1,
     (step s data).2 ++ (filter_run step (step s data).1 rest).2)

/-- The loop of `joystick_task` over a sequence of samples. -/
def joystick_task_run : joystick_state_t → List adc_t → joystick_state_t × List adc_t :=
  filter_run joystick_task_step

/-- The loop of `left_joystick_task` over a sequence of samples. -/
def left_joystick_task_run : joystick_state_t → List adc_t → joystick_state_t × List adc_t :=
  filter_run left_joystick_task_step

/-- The values, in order, of the events of `out` that carry axis `a`. -/
def axis_values (a : Int) (out : List adc_t) : List Int :=
  (out.filter (fun d => decide (d.axis = a))).map (fun d => d.val)

/-- The body shared by the two filter tasks, with the two axis numbers and the
dead-zone threshold as parameters; `joystick_task_step` is the instance
`6 7 30` and `left_joystick_task_step` the instance `8 9 42`. -/
def axis_filter_step (ax_x ax_y thr : Int) (s : joystick_state_t) (data : adc_t) :
    joystick_state_t × List adc_t :=
  let last_value : Option slot :=
    if data.axis = ax_x then some .last_val_x
    else if data.axis = ax_y then some .last_val_y
    else none
  match last_value with
  | none => (s, [])
  | some last_value =>
    if int_abs data.val > thr then
      if data.val ≠ deref s last_value then (assign s last_value data.val, [data])
      else (s, [])
    else
      if deref s last_value ≠ 0 then (assign s last_value 0, [⟨data.axis, 0⟩])
      else (s, [])

/-- The axis filter as the specification words it, on mathematical absolute
values: above the threshold and different from `last`, forward the sample; in
the dead zone with `last` nonzero, forward one zero; otherwise nothing. -/
def spec_axis_filter (ax_x ax_y thr : Int) (s : joystick_state_t) (data : adc_t) :
    joystick_state_t × List adc_t :=
  if data.axis = ax_x then
    if |data.val| > thr ∧ data.val ≠ s.last_val_x then
      (⟨data.val, s.last_val_y⟩, [⟨data.axis, data.val⟩])
    else if |data.val| ≤ thr ∧ s.last_val_x ≠ 0 then
      (⟨0, s.last_val_y⟩, [⟨data.axis, 0⟩])
    else (s, [])
  else if data.axis = ax_y then
    if |data.val| > thr ∧ data.val ≠ s.last_val_y then
      (⟨s.last_val_x, data.val⟩, [⟨data.axis, data.val⟩])
    else if |data.val| ≤ thr ∧ s.last_val_y ≠ 0 then
      (⟨s.last_val_x, 0⟩, [⟨data.axis, 0⟩])
    else (s, [])
  else (s, [])

/-- The value stored for axis `a` in a filter with axes `ax_x`, `ax_y`; an axis
the filter does not own has nothing stored and reads as 0. -/
def stored (ax_x ax_y : Int) (s : joystick_state_t) (a : Int) : Int :=
  if a = ax_x then s.last_val_x else if a = ax_y then s.last_val_y else 0

/-- The invariant of a filter's reachable states: each stored value is 0 or
lies outside the dead zone of threshold `thr`. -/
def dead_zone_inv (thr : Int) (s : joystick_state_t) : Prop :=
  (s.last_val_x = 0 ∨ thr < int_abs s.last_val_x) ∧
  (s.last_val_y = 0 ∨ thr < int_abs s.last_val_y)

/-! ## Helper lemmas on the byte arithmetic -/

theorem land_255_eq_emod (v : Int) : Int.land v 0xFF = v % 256 := by
  cases v with
  | ofNat n =>
    show ((n &&& 255 : Nat) : Int) = (n : Int) % 256
    have h := Nat.and_pow_two_sub_one_eq_mod n 8
    norm_num at h
    rw [h]
    omega
  | negSucc n =>
    show ((Nat.ldiff 255 n : Nat) : Int) = Int.negSucc n % 256
    have h : Nat.ldiff 255 n = 255 - n % 256 := by
      apply Nat.eq_of_testBit_eq
      intro i
      have h1 : (255 : Nat) - n % 256 = 2 ^ 8 - (n % 2 ^ 8 + 1) := by
        norm_num
        omega
      rw [h1, Nat.testBit_two_pow_sub_succ (Nat.mod_lt _ (by norm_num)), Nat.testBit_mod_two_pow]
      rw [Nat.testBit_ldiff]
      have h2 : (255 : Nat) = 2 ^ 8 - 1 := by norm_num
      rw [h2, Nat.testBit_two_pow_sub_one]
      by_cases hi : i < 8 <;> simp [hi]
    rw [h, Int.negSucc_eq]
    omega

theorem shiftRight_8_eq_ediv (v : Int) : Int.shiftRight v 8 = v / 256 := by
  have h := Int.shiftRight_eq_div_pow v 8
  norm_num at h
  exact h
theorem write_package_bytes (data : adc_t) :
    write_package data =
      [(data.axis % 256).toNat, (data.val / 256 % 256).toNat, (data.val % 256).toNat, 255] := by
  simp only [write_package, uart_putc_raw, land_255_eq_emod, shiftRight_8_eq_ediv]
  have h1 : ((-1 : Int) % 256).toNat = 255 := by decide
  have h2 : data.val % 256 % 256 = data.val % 256 := by omega
  rw [h1, h2]

/-! ## Helper lemmas on the debouncer -/

theorem game_btn_step_eq (s : game_btn_state) (k t : Nat) :
    game_btn_step s k t =
      if k < 8 ∧ has_debounced t (last_trigger s k) = true then
        (set_trigger s k t, ⟨write_package ⟨btn_axis k, 1⟩, []⟩)
      else (s, ⟨[], []⟩) := by
  by_cases hk : k < 8
  · by_cases hd : has_debounced t (last_trigger s k) = true <;>
      interval_cases k <;>
      simp_all [game_btn_step, last_trigger, set_trigger, btn_axis]
  · have h0 : k ≠ 0 := by omega
    have h1 : k ≠ 1 := by omega
    have h2 : k ≠ 2 := by omega
    have h3 : k ≠ 3 := by omega
    have h4 : k ≠ 4 := by omega
    have h5 : k ≠ 5 := by omega
    have h6 : k ≠ 6 := by omega
    have h7 : k ≠ 7 := by omega
    simp [game_btn_step, hk, h0, h1, h2, h3, h4, h5, h6, h7]

theorem last_trigger_set_trigger (s : game_btn_state) (k t j : Nat) (hk : k < 8) :
    last_trigger (set_trigger s k t) j = if j = k then t else last_trigger s j := by
  by_cases hj : j < 8
  · interval_cases k <;> interval_cases j <;> simp [last_trigger, set_trigger]
  · have hjk : j ≠ k := by omega
    rw [if_neg hjk]
    interval_cases k <;> 
      (unfold last_trigger set_trigger; split <;> omega)

theorem has_debounced_iff (c l : Nat) :
    has_debounced c l = true ↔ ((c : Int) - (l : Int)) % 4294967296 > 200 := by
  simp [has_debounced]

theorem game_btn_step_accept_eq (s : game_btn_state) (k t : Nat) (hk : k < 8)
    (h : has_debounced t (last_trigger s k) = true) :
    game_btn_step s k t = (set_trigger s k t, ⟨write_package ⟨btn_axis k, 1⟩, []⟩) := by
  rw [game_btn_step_eq, if_pos ⟨hk, h⟩]

theorem game_btn_step_out_ne_nil (s : game_btn_state) (k t : Nat)
    (h : (game_btn_step s k t).2 ≠ ⟨[], []⟩) :
    k < 8 ∧ has_debounced t (last_trigger s k) = true := by
  rw [game_btn_step_eq] at h
  by_cases hc : k < 8 ∧ has_debounced t (last_trigger s k) = true
  · exact hc
  · rw [if_neg hc] at h
    exact absurd rfl h

theorem last_trigger_step_le (s : game_btn_state) (k t j b : Nat)
    (hs : ∀ i, last_trigger s i ≤ b) (ht : t ≤ b) :
    last_trigger (game_btn_step s k t).1 j ≤ b := by
  rw [game_btn_step_eq]
  split
  · rename_i hc
    rw [last_trigger_set_trigger s k t j hc.1]
    split
    · exact ht
    · exact hs j
  · exact hs j

theorem last_trigger_le_step (s : game_btn_state) (k t j : Nat)
    (hs : last_trigger s k ≤ t) :
    last_trigger s j ≤ last_trigger (game_btn_step s k t).1 j := by
  rw [game_btn_step_eq]
  split
  · rename_i hc
    rw [last_trigger_set_trigger s k t j hc.1]
    split
    · rename_i hj
      rw [hj]
      exact hs
    · exact Nat.le_refl _
  · exact Nat.le_refl _

theorem accepted_after_last : ∀ (evs : List (Nat × Nat)) (s : game_btn_state),
    List.Pairwise (fun p q => p ≤ q) (evs.map Prod.snd) →
    (∀ i, ∀ e ∈ evs, last_trigger s i ≤ e.2) →
    ∀ r ∈ game_btn_trace s evs, r.out ≠ ⟨[], []⟩ →
      last_trigger s r.pressed_button + 200 < r.trigger_time := by
  intro evs
  induction evs with
  | nil => intro s _ _ r hr; simp [game_btn_trace] at hr
  | cons e rest ih =>
    obtain ⟨b, t⟩ := e
    intro s hsorted hinv r hr hacc
    simp only [List.map_cons, List.pairwise_cons] at hsorted
    simp only [game_btn_trace, List.mem_cons] at hr
    have hbt : ∀ i, last_trigger s i ≤ t := fun i => hinv i (b, t) (List.mem_cons_self _ _)
    rcases hr with hr | hr
    · subst hr
      have hc := (game_btn_step_out_ne_nil s b t hacc).2
      rw [has_debounced_iff] at hc
      have := hbt b
      show last_trigger s b + 200 < t
      omega
    · have hinv2 : ∀ i, ∀ e ∈ rest, last_trigger (game_btn_step s b t).1 i ≤ e.2 := by
        intro i e he
        have hte : t ≤ e.2 := hsorted.1 e.2 (List.mem_map_of_mem _ he)
        exact last_trigger_step_le s b t i e.2
          (fun j => hinv j e (List.mem_cons_of_mem _ he)) hte
      have h1 := ih (game_btn_step s b t).1 hsorted.2 hinv2 r hr hacc
      have h2 := last_trigger_le_step s b t r.pressed_button (hbt b)
      omega

theorem debounce_window_from : ∀ (evs : List (Nat × Nat)) (s : game_btn_state),
    List.Pairwise (fun p q => p ≤ q) (evs.map Prod.snd) →
    (∀ i, ∀ e ∈ evs, last_trigger s i ≤ e.2) →
    List.Pairwise
      (fun p q : btn_record => p.pressed_button = q.pressed_button → p.out ≠ ⟨[], []⟩ →
        q.out ≠ ⟨[], []⟩ → p.trigger_time + 200 < q.trigger_time)
      (game_btn_trace s evs) := by
  intro evs
  induction evs with
  | nil => intro s _ _; simp [game_btn_trace]
  | cons e rest ih =>
    obtain ⟨b, t⟩ := e
    intro s hsorted hinv
    simp only [List.map_cons, List.pairwise_cons] at hsorted
    have hbt : ∀ i, last_trigger s i ≤ t := fun i => hinv i (b, t) (List.mem_cons_self _ _)
    have hinv2 : ∀ i, ∀ e ∈ rest, last_trigger (game_btn_step s b t).1 i ≤ e.2 := by
      intro i e he
      have hte : t ≤ e.2 := hsorted.1 e.2 (List.mem_map_of_mem _ he)
      exact last_trigger_step_le s b t i e.2
        (fun j => hinv j e (List.mem_cons_of_mem _ he)) hte
    simp only [game_btn_trace, List.pairwise_cons]
    refine ⟨?_, ih _ hsorted.2 hinv2⟩
    intro r hr hsame hp hq
    have hc := game_btn_step_out_ne_nil s b t hp
    have h1 := accepted_after_last rest (game_btn_step s b t).1 hsorted.2 hinv2 r hr hq
    rw [game_btn_step_accept_eq s b t hc.1 hc.2] at h1
    replace hsame : b = r.pressed_button := hsame
    rw [last_trigger_set_trigger s b t _ hc.1, if_pos hsame.symm] at h1
    exact h1

theorem last_trigger_init (i : Nat) : last_trigger game_btn_init i = 0 := by
  unfold last_trigger game_btn_init
  split <;> rfl

theorem trace_all_accepted (b : Nat) (hb : b < 8) : ∀ (ts : List Nat) (s : game_btn_state),
    (∀ t ∈ ts, t < 4294967296) →
    List.Chain (fun p q => p + 200 < q) (last_trigger s b) ts →
    (game_btn_trace s (ts.map (fun t => (b, t)))).map (fun r => r.out) =
      ts.map (fun _ => (⟨write_package ⟨btn_axis b, 1⟩, []⟩ : task_output)) := by
  intro ts
  induction ts with
  | nil => intro s _ _; rfl
  | cons t rest ih =>
    intro s hbound hchain
    rw [List.chain_cons] at hchain
    have ht : t < 4294967296 := hbound t (List.mem_cons_self _ _)
    have hd : has_debounced t (last_trigger s b) = true := by
      rw [has_debounced_iff]
      have := hchain.1
      omega
    have hstep := game_btn_step_accept_eq s b t hb hd
    simp only [List.map_cons, game_btn_trace, hstep]
    congr 1
    apply ih
    · intro u hu
      exact hbound u (List.mem_cons_of_mem _ hu)
    · rw [last_trigger_set_trigger s b t b hb, if_pos rfl]
      exact hchain.2

/-! ## Helper lemmas on the joystick filters -/

theorem joystick_task_step_eq (s : joystick_state_t) (data : adc_t) :
    joystick_task_step s data = axis_filter_step 6 7 30 s data := rfl

theorem left_joystick_task_step_eq (s : joystick_state_t) (data : adc_t) :
    left_joystick_task_step s data = axis_filter_step 8 9 42 s data := rfl

theorem int_abs_eq_abs (v : Int) (hv : -2147483648 < v) : int_abs v = |v| := by
  unfold int_abs int_neg
  split
  · rename_i h
    rw [abs_of_neg h]
    omega
  · rename_i h
    rw [abs_of_nonneg (by omega)]

theorem axis_filter_step_spec (ax_x ax_y thr : Int) (s : joystick_state_t) (data : adc_t)
    (hv : -2147483648 < data.val) :
    axis_filter_step ax_x ax_y thr s data = spec_axis_filter ax_x ax_y thr s data := by
  obtain ⟨axis, val⟩ := data
  obtain ⟨lx, ly⟩ := s
  simp only [axis_filter_step, spec_axis_filter, int_abs_eq_abs val hv]
  generalize |val| = m
  by_cases h1 : axis = ax_x
  · simp only [h1, if_true, deref, assign]
    split_ifs <;> first | rfl | (exfalso; omega)
  · by_cases h2 : axis = ax_y
    · subst h2
      simp only [h1, if_true, if_false, deref, assign]
      split_ifs <;> first | rfl | (exfalso; omega)
    · simp only [h1, h2, if_false]

/-- What one filter iteration can do, seen from axis `a`: nothing, or one event
whose value differs from the value stored before and is the value stored after. -/
theorem axis_filter_step_cases (ax_x ax_y thr : Int) (s : joystick_state_t) (data : adc_t) :
    (axis_filter_step ax_x ax_y thr s data = (s, [])) ∨
    (∃ e, (axis_filter_step ax_x ax_y thr s data).2 = [e] ∧
      stored ax_x ax_y s e.axis ≠ e.val ∧
      stored ax_x ax_y (axis_filter_step ax_x ax_y thr s data).1 e.axis = e.val ∧
      (e.val = 0 ∨ thr < int_abs e.val) ∧
      ∀ a, a ≠ e.axis →
        stored ax_x ax_y (axis_filter_step ax_x ax_y thr s data).1 a = stored ax_x ax_y s a) := by
  obtain ⟨axis, val⟩ := data
  obtain ⟨lx, ly⟩ := s
  by_cases h1 : axis = ax_x
  · subst h1
    simp only [axis_filter_step, if_true, deref, assign]
    split_ifs with h3 h4 h5
    · right
      refine ⟨⟨axis, val⟩, rfl, ?_, ?_, Or.inr h3, ?_⟩
      · simp only [stored, if_true]; exact fun h => h4 h.symm
      · simp only [stored, if_true]
      · intro a ha; simp only [stored, ha, if_false]
    · left; rfl
    · right
      refine ⟨⟨axis, 0⟩, rfl, ?_, ?_, Or.inl rfl, ?_⟩
      · simp only [stored, if_true]; exact h5
      · simp only [stored, if_true]
      · intro a ha; simp only [stored, ha, if_false]
    · left; rfl
  · by_cases h2 : axis = ax_y
    · subst h2
      simp only [axis_filter_step, h1, if_true, if_false, deref, assign]
      split_ifs with h3 h4 h5
      · right
        refine ⟨⟨axis, val⟩, rfl, ?_, ?_, Or.inr h3, ?_⟩
        · simp only [stored, h1, if_true, if_false]; exact fun h => h4 h.symm
        · simp only [stored, h1, if_true, if_false]
        · intro a ha; simp only [stored, ha, if_false]
      · left; rfl
      · right
        refine ⟨⟨axis, 0⟩, rfl, ?_, ?_, Or.inl rfl, ?_⟩
        · simp only [stored, h1, if_true, if_false]; exact h5
        · simp only [stored, h1, if_true, if_false]
        · intro a ha; simp only [stored, ha, if_false]
      · left; rfl
    · left
      simp only [axis_filter_step, h1, h2, if_false]

theorem axis_values_append (a : Int) (xs ys : List adc_t) :
    axis_values a (xs ++ ys) = axis_values a xs ++ axis_values a ys := by
  simp [axis_values]

theorem axis_filter_chain (ax_x ax_y thr : Int) : ∀ (samples : List adc_t)
    (s : joystick_state_t) (a : Int),
    List.Chain (fun v w => v ≠ w) (stored ax_x ax_y s a)
      (axis_values a (filter_run (axis_filter_step ax_x ax_y thr) s samples).2) := by
  intro samples
  induction samples with
  | nil => intro s a; exact List.Chain.nil
  | cons d rest ih =>
    intro s a
    simp only [filter_run, axis_values_append]
    rcases axis_filter_step_cases ax_x ax_y thr s d with h | ⟨e, he, hne, hst, _, hother⟩
    · rw [h]
      exact ih s a
    · rw [he]
      by_cases hax : a = e.axis
      · subst hax
        have hv : axis_values e.axis [e] = [e.val] := by simp [axis_values]
        rw [hv]
        refine List.Chain.cons hne ?_
        have := ih (axis_filter_step ax_x ax_y thr s d).1 e.axis
        rw [hst] at this
        exact this
      · have hax2 : ¬ e.axis = a := fun h => hax h.symm
        have hv : axis_values a [e] = [] := by
          simp [axis_values, hax2]
        rw [hv, List.nil_append, ← hother a hax]
        exact ih _ a

theorem stored_init (ax_x ax_y a : Int) : stored ax_x ax_y joystick_init a = 0 := by
  simp [stored, joystick_init]

theorem chain_zero_head {l : List Int} (h : List.Chain (fun v w => v ≠ w) 0 l) :
    List.Chain' (fun v w => v ≠ w) l ∧ l.head? ≠ some 0 := by
  cases l with
  | nil => exact ⟨List.chain'_nil, by simp⟩
  | cons x xs =>
    rw [List.chain_cons] at h
    refine ⟨h.2, ?_⟩
    simp only [List.head?_cons, ne_eq, Option.some.injEq]
    exact fun hx => h.1 hx.symm

theorem dead_zone_inv_step (ax_x ax_y thr : Int) (s : joystick_state_t) (data : adc_t)
    (h : dead_zone_inv thr s) : dead_zone_inv thr (axis_filter_step ax_x ax_y thr s data).1 := by
  obtain ⟨axis, val⟩ := data
  obtain ⟨lx, ly⟩ := s
  obtain ⟨hx, hy⟩ := h
  by_cases h1 : axis = ax_x
  · subst h1
    simp only [axis_filter_step, if_true, deref, assign]
    split_ifs with h3 h4 h5
    · exact ⟨Or.inr h3, hy⟩
    · exact ⟨hx, hy⟩
    · exact ⟨Or.inl rfl, hy⟩
    · exact ⟨hx, hy⟩
  · by_cases h2 : axis = ax_y
    · subst h2
      simp only [axis_filter_step, h1, if_true, if_false, deref, assign]
      split_ifs with h3 h4 h5
      · exact ⟨hx, Or.inr h3⟩
      · exact ⟨hx, hy⟩
      · exact ⟨hx, Or.inl rfl⟩
      · exact ⟨hx, hy⟩
    · simp only [axis_filter_step, h1, h2, if_false]
      exact ⟨hx, hy⟩

theorem dead_zone_inv_run (ax_x ax_y thr : Int) : ∀ (samples : List adc_t)
    (s : joystick_state_t), dead_zone_inv thr s →
    dead_zone_inv thr (filter_run (axis_filter_step ax_x ax_y thr) s samples).1 := by
  intro samples
  induction samples with
  | nil => intro s h; exact h
  | cons d rest ih =>
    intro s h
    simp only [filter_run]
    exact ih _ (dead_zone_inv_step ax_x ax_y thr s d h)

theorem dead_zone_inv_init (thr : Int) : dead_zone_inv thr joystick_init :=
  ⟨Or.inl rfl, Or.inl rfl⟩

theorem lt_abs_of_lt_int_abs (thr v : Int) (hthr : 0 ≤ thr) (h : thr < int_abs v) :
    thr < |v| := by
  unfold int_abs int_neg at h
  split at h
  · rename_i hneg
    rw [abs_of_neg hneg]
    omega
  · rename_i hpos
    rw [abs_of_nonneg (by omega)]
    exact h

theorem axis_filter_step_same (ax_x ax_y thr : Int) (s : joystick_state_t)
    (data : adc_t) (hinv : dead_zone_inv thr s)
    (h : (data.axis = ax_x ∧ data.val = s.last_val_x) ∨
      (data.axis ≠ ax_x ∧ data.axis = ax_y ∧ data.val = s.last_val_y)) :
    axis_filter_step ax_x ax_y thr s data = (s, []) := by
  obtain ⟨axis, val⟩ := data
  obtain ⟨lx, ly⟩ := s
  obtain ⟨hx, hy⟩ := hinv
  rcases h with ⟨h1, hv⟩ | ⟨h1, h2, hv⟩
  · simp only at h1 hv hx
    subst h1 hv
    simp only [axis_filter_step, if_true, deref, assign]
    split_ifs with h3 h4 h5
    · exact absurd rfl h4
    · rfl
    · rcases hx with hx | hx
      · exact absurd hx h5
      · exact absurd hx h3
    · rfl
  · simp only at h1 h2 hv hy
    subst h2 hv
    simp only [axis_filter_step, h1, if_true, if_false, deref, assign]
    split_ifs with h3 h4 h5
    · exact absurd rfl h4
    · rfl
    · rcases hy with hy | hy
      · exact absurd hy h5
      · exact absurd hy h3
    · rfl

/-! ## Helper lemmas on the samplers and the frame reader -/

theorem tdiv_255_2047 (raw : Int) (h0 : 0 ≤ raw) (h1 : raw ≤ 4095) :
    -(Int.tdiv ((raw - 2047) * 255) 2047) =
      if 2047 ≤ raw then -(((raw - 2047) * 255) / 2047) else ((2047 - raw) * 255) / 2047 := by
  split
  · rename_i h
    rw [Int.tdiv_eq_ediv (by omega) (by decide)]
  · rename_i h
    have e : (raw - 2047) * 255 = -((2047 - raw) * 255) := by ring
    rw [e, Int.neg_tdiv, neg_neg, Int.tdiv_eq_ediv (by omega) (by decide)]

theorem spec_decode_write_package (axis val : Int) (ha0 : 0 ≤ axis) (ha1 : axis ≤ 255)
    (hv0 : -32768 ≤ val) (hv1 : val ≤ 32767) :
    spec_decode_frame (write_package ⟨axis, val⟩) = some ⟨axis, val⟩ := by
  rw [write_package_bytes]
  simp only [spec_decode_frame, spec_be16_signed, Option.some.injEq, adc_t.mk.injEq]
  constructor
  · omega
  · split <;> omega

theorem btn_axis_range (k : Nat) (hk : k < 8) : 0 ≤ btn_axis k ∧ btn_axis k ≤ 11 := by
  unfold btn_axis
  split <;> omega

theorem other_slot_kept (ax_x ax_y thr : Int) (s : joystick_state_t) (data : adc_t) :
    (data.axis ≠ ax_x → (axis_filter_step ax_x ax_y thr s data).1.last_val_x = s.last_val_x)
      ∧ (data.axis = ax_x ∨ data.axis ≠ ax_y →
          (axis_filter_step ax_x ax_y thr s data).1.last_val_y = s.last_val_y) := by
  obtain ⟨axis, val⟩ := data
  obtain ⟨lx, ly⟩ := s
  constructor
  · intro h
    replace h : ¬ axis = ax_x := h
    by_cases h2 : axis = ax_y
    · subst h2
      simp only [axis_filter_step, h, if_true, if_false, deref, assign]
      split_ifs <;> rfl
    · simp only [axis_filter_step, h, h2, if_false]
  · intro h
    by_cases h1 : axis = ax_x
    · subst h1
      simp only [axis_filter_step, if_true, deref, assign]
      split_ifs <;> rfl
    · have h2 : ¬ axis = ax_y := by
        rcases h with h | h
        · exact absurd h h1
        · exact h
      simp only [axis_filter_step, h1, h2, if_false]

/-! ## The wire format (C1) -/

/-- Claim C1, frame round trip. For every event with axis in 0..11 and value in
the signed 16-bit range, `write_package` writes exactly four bytes: the axis,
bits 8-15 of the value's 16-bit two's-complement representation, bits 0-7 of it,
and `0xFF`; reading bytes 2 and 3 back as a big-endian two's-complement number,
with byte 1 as the axis, recovers the event; and the event axis 6, value -200
is written as `06 FF 38 FF`. -/
theorem write_package_round_trip (axis val : Int) (ha : 0 ≤ axis ∧ axis ≤ 11)
    (hv : -32768 ≤ val ∧ val ≤ 32767) :
    write_package ⟨axis, val⟩ =
        [axis.toNat, (val % 65536).toNat / 256, (val % 65536).toNat % 256, 0xFF]
      ∧ spec_decode_frame (write_package ⟨axis, val⟩) = some ⟨axis, val⟩
      ∧ write_package ⟨6, -200⟩ = [0x06, 0xFF, 0x38, 0xFF] := by
  obtain ⟨ha0, ha1⟩ := ha
  obtain ⟨hv0, hv1⟩ := hv
  refine ⟨?_, spec_decode_write_package axis val ha0 (by omega) hv0 hv1, ?_⟩
  · rw [write_package_bytes]
    simp only [List.cons.injEq, and_true]
    refine ⟨by omega, by omega, by omega⟩
  · rw [write_package_bytes]
    decide

/-- The round trip at axis 6, value -200. -/
theorem write_package_round_trip_witness :
    ((0 : Int) ≤ 6 ∧ (6 : Int) ≤ 11) ∧ ((-32768 : Int) ≤ -200 ∧ (-200 : Int) ≤ 32767)
      ∧ (write_package ⟨6, -200⟩ =
          [(6 : Int).toNat, ((-200 : Int) % 65536).toNat / 256,
            ((-200 : Int) % 65536).toNat % 256, 0xFF]
        ∧ spec_decode_frame (write_package ⟨6, -200⟩) = some ⟨6, -200⟩
        ∧ write_package ⟨6, -200⟩ = [0x06, 0xFF, 0x38, 0xFF]) :=
  ⟨by decide, by decide, write_package_round_trip 6 (-200) (by decide) (by decide)⟩

/-! ## The debouncer (C2, C3, C6) -/

/-- Claim C2 as amended. For every sequence of presses of one button (raw ID
below 8) whose timestamps are 32-bit millisecond counts, the first later than
200 ms after boot and each later than its predecessor by more than 200 ms, the
debouncer loop started from its initial state accepts every press: the whole
output of each iteration is one frame, the frame of the button's event with
value 1, and nothing besides on either the serial channel or the transmit
queue. -/
theorem presses_spaced_accepted (b : Nat) (ts : List Nat) (hb : b < 8)
    (hbound : ∀ t ∈ ts, t < 4294967296)
    (hfirst : ∀ t ∈ ts.head?, DEBOUNCE_TIME < t)
    (hspaced : List.Chain' (fun p q => p + DEBOUNCE_TIME < q) ts) :
    (game_btn_trace game_btn_init (ts.map (fun t => (b, t)))).map (fun r => r.out) =
        ts.map (fun _ => (⟨write_package ⟨btn_axis b, 1⟩, []⟩ : task_output))
      ∧ spec_decode_frame (write_package ⟨btn_axis b, 1⟩) = some ⟨btn_axis b, 1⟩ := by
  constructor
  · exact trace_all_accepted b hb ts game_btn_init hbound (by
      rw [last_trigger_init]
      cases ts with
      | nil => exact List.Chain.nil
      | cons t rest =>
        refine List.Chain.cons ?_ hspaced
        have h200 : 200 < t := hfirst t (by simp)
        show 0 + 200 < t
        omega)
  · have h0 := btn_axis_range b hb
    exact spec_decode_write_package (btn_axis b) 1 h0.1 (by omega) (by decide) (by decide)

/-- Three presses of the right joystick switch at 201, 402 and 1000 ms. -/
theorem presses_spaced_accepted_witness :
    (game_btn_trace game_btn_init ([201, 402, 1000].map (fun t => (6, t)))).map
          (fun r => r.out) =
        [201, 402, 1000].map (fun _ => (⟨write_package ⟨btn_axis 6, 1⟩, []⟩ : task_output))
      ∧ spec_decode_frame (write_package ⟨btn_axis 6, 1⟩) = some ⟨btn_axis 6, 1⟩ :=
  presses_spaced_accepted 6 [201, 402, 1000] (by decide) (by decide) (by decide)
    (by simp [DEBOUNCE_TIME])

/-- Claim C2 as stated fails. Two presses of button B at 300 ms and 500 ms are
200 ms apart, yet the second puts out nothing at all; and a single press at
200 ms, from the initial state, puts out nothing either. -/
theorem presses_200_apart_counterexample :
    List.Chain' (fun p q => p + 200 ≤ q) [300, 500]
      ∧ (game_btn_trace game_btn_init ([300, 500].map (fun t => (0, t)))).map
          (fun r => r.out) = [⟨[0, 0, 1, 255], []⟩, ⟨[], []⟩]
      ∧ (game_btn_trace game_btn_init ([200].map (fun t => (0, t)))).map
          (fun r => r.out) = [⟨[], []⟩] := by
  refine ⟨by simp, ?_, ?_⟩
  · simp [game_btn_trace, game_btn_step, game_btn_init, has_debounced, write_package_bytes]
  · simp [game_btn_trace, game_btn_step, game_btn_init, has_debounced]

/-- Claim C3, debounce window. For every sequence of raw button IDs processed by
the debouncer loop from its initial state with non-decreasing timestamps, any
two iterations for the same button that both put something out, on the serial
channel or on the transmit queue, have timestamps at least 200 ms apart; put
the other way, when an iteration puts something out, a later one for the same
button less than 200 ms after it puts out nothing on either. -/
theorem debounce_window (evs : List (Nat × Nat))
    (hmono : List.Pairwise (fun p q => p ≤ q) (evs.map Prod.snd)) :
    List.Pairwise
        (fun p q : btn_record => p.pressed_button = q.pressed_button → p.out ≠ ⟨[], []⟩ →
          q.out ≠ ⟨[], []⟩ → ¬ (q.trigger_time < p.trigger_time + DEBOUNCE_TIME))
        (game_btn_trace game_btn_init evs)
      ∧ List.Pairwise
        (fun p q : btn_record => p.pressed_button = q.pressed_button →
          q.trigger_time < p.trigger_time + DEBOUNCE_TIME → p.out ≠ ⟨[], []⟩ →
          q.out = ⟨[], []⟩)
        (game_btn_trace game_btn_init evs) := by
  have h := debounce_window_from evs game_btn_init hmono
    (fun i e _ => by rw [last_trigger_init]; exact Nat.zero_le _)
  constructor
  · refine h.imp ?_
    intro p q hpq hsame hp hq
    have := hpq hsame hp hq
    show ¬ (q.trigger_time < p.trigger_time + 200)
    omega
  · refine h.imp ?_
    intro p q hpq hsame hlt hp
    by_contra hq
    have := hpq hsame hp hq
    replace hlt : q.trigger_time < p.trigger_time + 200 := hlt
    omega

/-- Button B pressed at 300, 450 and 501 ms, with a press of Y in between. -/
theorem debounce_window_witness :
    List.Pairwise (fun p q => p ≤ q) ([(0, 300), (1, 400), (0, 450), (0, 501)].map Prod.snd)
      ∧ (List.Pairwise
          (fun p q : btn_record => p.pressed_button = q.pressed_button → p.out ≠ ⟨[], []⟩ →
            q.out ≠ ⟨[], []⟩ → ¬ (q.trigger_time < p.trigger_time + DEBOUNCE_TIME))
          (game_btn_trace game_btn_init [(0, 300), (1, 400), (0, 450), (0, 501)])
        ∧ List.Pairwise
          (fun p q : btn_record => p.pressed_button = q.pressed_button →
            q.trigger_time < p.trigger_time + DEBOUNCE_TIME → p.out ≠ ⟨[], []⟩ →
            q.out = ⟨[], []⟩)
          (game_btn_trace game_btn_init [(0, 300), (1, 400), (0, 450), (0, 501)])) :=
  ⟨by decide, debounce_window [(0, 300), (1, 400), (0, 450), (0, 501)] (by decide)⟩

/-- Claim C6 as amended. For every raw button ID `id` in 0..7 and every time
`now` at which the press is accepted, the debouncer iteration sets the timestamp
of `id` to `now`, leaves the timestamps of the other buttons unchanged, and
emits exactly one event, of value 1, whose axis is `id` for the IDs 0 to 5, 10
for ID 6 and 11 for ID 7: the whole output of the iteration is the frame of
that event, with nothing besides on the serial channel or the transmit
queue. -/
theorem game_btn_step_accept (s : game_btn_state) (id now : Nat) (hid : id < 8)
    (hacc : has_debounced now (last_trigger s id) = true) :
    (∀ k, last_trigger (game_btn_step s id now).1 k = if k = id then now else last_trigger s k)
      ∧ (game_btn_step s id now).2 =
          ⟨write_package ⟨if id ≤ 5 then (id : Int) else (id : Int) + 4, 1⟩, []⟩
      ∧ spec_decode_frame (game_btn_step s id now).2.uart =
          some ⟨if id ≤ 5 then (id : Int) else (id : Int) + 4, 1⟩ := by
  rw [game_btn_step_accept_eq s id now hid hacc]
  have h0 := btn_axis_range id hid
  refine ⟨fun k => last_trigger_set_trigger s id now k hid, rfl, ?_⟩
  exact spec_decode_write_package (btn_axis id) 1 h0.1 (by omega) (by decide) (by decide)

/-- The left joystick switch accepted at 300 ms from the initial state. -/
theorem game_btn_step_accept_witness :
    (7 < 8 ∧ has_debounced 300 (last_trigger game_btn_init 7) = true)
      ∧ ((∀ k, last_trigger (game_btn_step game_btn_init 7 300).1 k =
            if k = 7 then 300 else last_trigger game_btn_init k)
        ∧ (game_btn_step game_btn_init 7 300).2 =
            ⟨write_package ⟨if 7 ≤ 5 then ((7 : Nat) : Int) else ((7 : Nat) : Int) + 4, 1⟩, []⟩
        ∧ spec_decode_frame (game_btn_step game_btn_init 7 300).2.uart =
            some ⟨if 7 ≤ 5 then ((7 : Nat) : Int) else ((7 : Nat) : Int) + 4, 1⟩) :=
  ⟨⟨by decide, by decide⟩, game_btn_step_accept game_btn_init 7 300 (by decide) (by decide)⟩

/-- Claim C6 as stated fails. Raw ID 6 accepted at 300 ms from the initial state
emits the event of axis 10, not of axis 6. -/
theorem game_btn_step_accept_counterexample :
    has_debounced 300 (last_trigger game_btn_init 6) = true
      ∧ (game_btn_step game_btn_init 6 300).2 = ⟨write_package ⟨10, 1⟩, []⟩
      ∧ spec_decode_frame (game_btn_step game_btn_init 6 300).2.uart = some ⟨10, 1⟩
      ∧ (game_btn_step game_btn_init 6 300).2.uart ≠ write_package ⟨6, 1⟩ := by
  have h : (game_btn_step game_btn_init 6 300).2 = ⟨write_package ⟨10, 1⟩, []⟩ := by
    simp [game_btn_step, game_btn_init, has_debounced]
  refine ⟨by decide, h, ?_, ?_⟩
  · rw [h]
    show spec_decode_frame (write_package ⟨10, 1⟩) = some ⟨10, 1⟩
    rw [write_package_bytes]; decide
  · rw [h]
    show write_package ⟨10, 1⟩ ≠ write_package ⟨6, 1⟩
    rw [write_package_bytes, write_package_bytes]; decide

/-! ## The edge source and the serial channel (C4, C5) -/

/-- Claim C4 at its failing input. A rising edge on the B pin (pin 10, the one
pin registered for both edges) makes `game_btn_callback` push one value, the
ID 0 of button B, where the claim has nothing pushed; the callback pushes
exactly one value on every notification; and the debouncer turns that value, at
300 ms from its initial state, into a frame of button B. -/
theorem game_btn_callback_rising_edge :
    game_btn_callback GAME_BTN_B_PIN GPIO_IRQ_EDGE_RISE = [0]
      ∧ game_btn_callback GAME_BTN_B_PIN GPIO_IRQ_EDGE_FALL = [0]
      ∧ (∀ gpio events, (game_btn_callback gpio events).length = 1)
      ∧ (game_btn_callback GAME_BTN_B_PIN GPIO_IRQ_EDGE_RISE).map
          (fun pressed => (game_btn_step game_btn_init pressed 300).2.uart) =
          [[0, 0, 1, 255]] := by
  refine ⟨by decide, by decide, fun _ _ => rfl, ?_⟩
  simp [game_btn_callback, game_btn_step, game_btn_init, has_debounced, write_package_bytes]

/-- Claim C5 at its failing input. The debouncer iteration that accepts button B
at 300 ms from the initial state writes the four bytes `00 00 01 FF` to the
serial channel itself and sends nothing to the transmit queue, where the claim
has it write no byte and queue the event for `hc06_task`. -/
theorem game_btn_step_writes_serial :
    (game_btn_step game_btn_init 0 300).2 = ⟨[0, 0, 1, 255], []⟩
      ∧ hc06_step ⟨0, 1⟩ = [0, 0, 1, 255] := by
  constructor
  · simp [game_btn_step, game_btn_init, has_debounced, write_package_bytes]
  · simp [hc06_step, write_package_bytes]

/-! ## The joystick filters (C7, C8, C9) -/

/-- Claim C7, axis filter step. For every state and every sample whose value is
an `int` other than `INT_MIN` (where `abs` is undefined), the iteration of
`joystick_task` does what the specification's filter does with axes 6 and 7 and
threshold 30, and that of `left_joystick_task` with axes 8 and 9 and threshold
42: outside the dead zone and different from `last` it forwards the sample and
stores it; inside the dead zone with `last` nonzero it forwards one zero and
stores 0; otherwise, and for any other axis, it forwards nothing and keeps the
state. A sample never modifies the slot of the other axis. -/
theorem axis_filter_contract (s : joystick_state_t) (data : adc_t)
    (hv : -2147483648 < data.val) :
    joystick_task_step s data = spec_axis_filter 6 7 30 s data
      ∧ left_joystick_task_step s data = spec_axis_filter 8 9 42 s data
      ∧ (data.axis ≠ 6 → (joystick_task_step s data).1.last_val_x = s.last_val_x)
      ∧ (data.axis ≠ 7 → (joystick_task_step s data).1.last_val_y = s.last_val_y)
      ∧ (data.axis ≠ 8 → (left_joystick_task_step s data).1.last_val_x = s.last_val_x)
      ∧ (data.axis ≠ 9 → (left_joystick_task_step s data).1.last_val_y = s.last_val_y) := by
  have hr := other_slot_kept 6 7 30 s data
  have hl := other_slot_kept 8 9 42 s data
  refine ⟨axis_filter_step_spec 6 7 30 s data hv, axis_filter_step_spec 8 9 42 s data hv,
    hr.1, fun h => hr.2 (Or.inr h), hl.1, fun h => hl.2 (Or.inr h)⟩

/-- The right filter with `last_val_x = 100` receiving 10 on axis 6. -/
theorem axis_filter_contract_witness :
    (-2147483648 : Int) < 10
      ∧ joystick_task_step ⟨100, 50⟩ ⟨6, 10⟩ = (⟨0, 50⟩, [⟨6, 0⟩])
      ∧ spec_axis_filter 6 7 30 ⟨100, 50⟩ ⟨6, 10⟩ = (⟨0, 50⟩, [⟨6, 0⟩]) := by
  have h := axis_filter_contract ⟨100, 50⟩ ⟨6, 10⟩ (by decide)
  have e : joystick_task_step ⟨100, 50⟩ ⟨6, 10⟩ = (⟨0, 50⟩, [⟨6, 0⟩]) := by decide
  exact ⟨by decide, e, h.1 ▸ e⟩

/-- Claim C8, no repeated value. For every finite sequence of samples processed
by a filter task from its initial state `{0, 0}` and every axis, the values of
the events emitted for that axis, in order, never repeat from one event to the
next, and the first of them is not 0; so two zero events for an axis always
have a nonzero event for that axis between them. -/
theorem filter_no_repeat (samples : List adc_t) (a : Int) :
    (List.Chain' (fun v w => v ≠ w) (axis_values a (joystick_task_run joystick_init samples).2)
      ∧ (axis_values a (joystick_task_run joystick_init samples).2).head? ≠ some 0)
    ∧ (List.Chain' (fun v w => v ≠ w)
          (axis_values a (left_joystick_task_run joystick_init samples).2)
      ∧ (axis_values a (left_joystick_task_run joystick_init samples).2).head? ≠ some 0) := by
  constructor
  · apply chain_zero_head
    have h := axis_filter_chain 6 7 30 samples joystick_init a
    rw [stored_init] at h
    exact h
  · apply chain_zero_head
    have h := axis_filter_chain 8 9 42 samples joystick_init a
    rw [stored_init] at h
    exact h

/-- Claim C9, idempotence. In every state a filter task reaches from `{0, 0}`
by processing a sequence of samples, each stored value is 0 or has absolute
value above the task's threshold, and a further sample whose value equals the
value stored for its axis produces no event and leaves the state unchanged. -/
theorem filter_idempotent (samples : List adc_t) (data : adc_t) :
    (((joystick_task_run joystick_init samples).1.last_val_x = 0 ∨
          30 < |(joystick_task_run joystick_init samples).1.last_val_x|)
      ∧ ((joystick_task_run joystick_init samples).1.last_val_y = 0 ∨
          30 < |(joystick_task_run joystick_init samples).1.last_val_y|)
      ∧ ((data.axis = 6 ∧ data.val = (joystick_task_run joystick_init samples).1.last_val_x) ∨
          (data.axis = 7 ∧ data.val = (joystick_task_run joystick_init samples).1.last_val_y) →
        joystick_task_step (joystick_task_run joystick_init samples).1 data =
          ((joystick_task_run joystick_init samples).1, [])))
    ∧ (((left_joystick_task_run joystick_init samples).1.last_val_x = 0 ∨
          42 < |(left_joystick_task_run joystick_init samples).1.last_val_x|)
      ∧ ((left_joystick_task_run joystick_init samples).1.last_val_y = 0 ∨
          42 < |(left_joystick_task_run joystick_init samples).1.last_val_y|)
      ∧ ((data.axis = 8 ∧ data.val = (left_joystick_task_run joystick_init samples).1.last_val_x) ∨
          (data.axis = 9 ∧ data.val = (left_joystick_task_run joystick_init samples).1.last_val_y) →
        left_joystick_task_step (left_joystick_task_run joystick_init samples).1 data =
          ((left_joystick_task_run joystick_init samples).1, []))) := by
  have hr := dead_zone_inv_run 6 7 30 samples joystick_init (dead_zone_inv_init 30)
  have hl := dead_zone_inv_run 8 9 42 samples joystick_init (dead_zone_inv_init 42)
  refine ⟨⟨?_, ?_, ?_⟩, ⟨?_, ?_, ?_⟩⟩
  · exact hr.1.imp id (lt_abs_of_lt_int_abs 30 _ (by decide))
  · exact hr.2.imp id (lt_abs_of_lt_int_abs 30 _ (by decide))
  · intro h
    apply axis_filter_step_same 6 7 30 _ data hr
    rcases h with ⟨h1, h2⟩ | ⟨h1, h2⟩
    · exact Or.inl ⟨h1, h2⟩
    · exact Or.inr ⟨by rw [h1]; decide, h1, h2⟩
  · exact hl.1.imp id (lt_abs_of_lt_int_abs 42 _ (by decide))
  · exact hl.2.imp id (lt_abs_of_lt_int_abs 42 _ (by decide))
  · intro h
    apply axis_filter_step_same 8 9 42 _ data hl
    rcases h with ⟨h1, h2⟩ | ⟨h1, h2⟩
    · exact Or.inl ⟨h1, h2⟩
    · exact Or.inr ⟨by rw [h1]; decide, h1, h2⟩

/-- The right filter after the samples 100 and -80 on axis 6, receiving -80 on
axis 6 once more. -/
theorem filter_idempotent_witness :
    ((6 : Int) = 6 ∧
        (-80 : Int) = (joystick_task_run joystick_init [⟨6, 100⟩, ⟨6, -80⟩]).1.last_val_x)
      ∧ joystick_task_step (joystick_task_run joystick_init [⟨6, 100⟩, ⟨6, -80⟩]).1 ⟨6, -80⟩ =
          ((joystick_task_run joystick_init [⟨6, 100⟩, ⟨6, -80⟩]).1, []) :=
  ⟨⟨rfl, by decide⟩,
    (filter_idempotent [⟨6, 100⟩, ⟨6, -80⟩] ⟨6, -80⟩).1.2.2 (Or.inl ⟨rfl, by decide⟩)⟩

/-! ## The samplers (C10) -/

/-- Claim C10, sampler normalisation. For every converter reading `raw` in
0..4095, `x_task`, `y_task` and `mux_task` forward the same value, the negation
of `(raw - 2047) * 255 / 2047` with the division truncated toward zero (the
floor of the magnitude carrying the sign of `raw - 2047`); that value lies in
-255..255; and the readings 2047, 0 and 4095 give 0, 255 and -255. -/
theorem sampler_normalisation (raw : Int) (h0 : 0 ≤ raw) (h1 : raw ≤ 4095) :
    x_task_step raw = ⟨6, -(Int.tdiv ((raw - 2047) * 255) 2047)⟩
      ∧ y_task_step raw = ⟨7, -(Int.tdiv ((raw - 2047) * 255) 2047)⟩
      ∧ (∀ get_x, (mux_task_step get_x raw).2.1 =
          ⟨if get_x = true then 8 else 9, -(Int.tdiv ((raw - 2047) * 255) 2047)⟩)
      ∧ -(Int.tdiv ((raw - 2047) * 255) 2047) =
          (if 2047 ≤ raw then -(((raw - 2047) * 255) / 2047) else ((2047 - raw) * 255) / 2047)
      ∧ -255 ≤ -(Int.tdiv ((raw - 2047) * 255) 2047)
      ∧ -(Int.tdiv ((raw - 2047) * 255) 2047) ≤ 255
      ∧ (x_task_step 2047).val = 0 ∧ (x_task_step 0).val = 255
      ∧ (x_task_step 4095).val = -255 := by
  refine ⟨rfl, rfl, fun _ => rfl, tdiv_255_2047 raw h0 h1, ?_, ?_, by decide, by decide, by decide⟩
  · rw [tdiv_255_2047 raw h0 h1]
    split <;> omega
  · rw [tdiv_255_2047 raw h0 h1]
    split <;> omega

/-- The reading 1000, which all three samplers forward as 130. -/
theorem sampler_normalisation_witness :
    ((0 : Int) ≤ 1000 ∧ (1000 : Int) ≤ 4095)
      ∧ x_task_step 1000 = ⟨6, 130⟩ ∧ y_task_step 1000 = ⟨7, 130⟩
      ∧ (mux_task_step true 1000).2.1 = ⟨8, 130⟩ := by
  have h := sampler_normalisation 1000 (by decide) (by decide)
  have e : -(Int.tdiv (((1000 : Int) - 2047) * 255) 2047) = 130 := by decide
  rw [e] at h
  exact ⟨by decide, h.1, h.2.1, h.2.2.1 true⟩

end Controller
